import Mathlib

/-!
Verification of `scripts/generate_blog_image.py`.

The script is embedded shallowly:
* byte strings become `List Nat`;
* Python strings become Lean `String`s; character-level operations
  (`str.endswith`, `in`, `str.lower`) are modelled on the underlying
  character lists (`String.data`), which matches Python's per-character
  semantics for the ASCII patterns the script uses;
* filesystem paths become `PyPath`, a model of `pathlib.PurePosixPath`
  joining (an absolute right operand resets the path, components are
  split on the slash character);
* the effectful body of `generate_image` becomes a pure function from an
  environment record (the inference outcome, the write outcome and the
  post-write filesystem observations) to a run result (exit code, bytes
  written, messages printed).  `sys.exit(1)` is modelled as exit code 1;
  falling off the end of the function is exit code 0.
-/

namespace BlogImage

/-- Python `pat in s` (substring containment), at character-list level. -/
def containsSub (s pat : List Char) : Bool := decide (pat <:+: s)

/-- Python `s.lower()` restricted to ASCII letters, the only characters
occurring in the error patterns the script matches. -/
def lowerChars (s : List Char) : List Char := s.map Char.toLower

/-- The canonical 8-byte PNG signature, from `validate_png` in the source. -/
def png_signature : List Nat := [137, 80, 78, 71, 13, 10, 26, 10]

/-- Source `validate_png(data)`: `data[:8] == png_signature`.  Python list
slicing truncates, so `data[:8]` is `List.take 8` and never faults. -/
def validate_png (data : List Nat) : Bool := data.take 8 == png_signature

/-- Source `ensure_png_extension(filename)`: append `".png"` unless the
filename already ends with it (`str.endswith`, case-sensitive). -/
def ensure_png_extension (filename : String) : String :=
  if ".png".data.isSuffixOf filename.data then filename
  else filename ++ ".png"

/-- The fixed style constant from `construct_image_prompt`. -/
def style_prompt : String :=
  "pseudo realistic cell-shaded style with focus and focus blur effects"

/-- The template text before the interpolated title. -/
def promptPart1 : String :=
  "Create a tech-oriented featured image for a blog post using everyday scenes or objects.\n\nPost Title: "

/-- The template text between the title and the content. -/
def promptPart2 : String := "\nPost Theme: "

/-- The template text between the content and the style constant. -/
def promptPart3 : String := "\n\nStyle Requirements:\n- "

/-- The template text after the style constant, to the end. -/
def promptPart4 : String :=
  "\n- Scene or object-based imagery: rooms, courtyards, open city/suburban spaces, OR closeup of everyday household/office items\n- Examples: red stapler on desk, keyboard with coffee cup, violin on stand, pots in kitchen sink, towel on towel rail, empty office room, urban courtyard\n- Modern, tech-oriented color scheme\n- Limited color palette (3-5 colors)\n- Include at least one element in sharp focus and one element with blur/depth-of-field effect\n- No people or animals\n- No text or words in the image\n- Landscape orientation suitable for a blog header\n\nTechnical aesthetic: Clean, modern, minimalist with depth\n"

/-- Source `construct_image_prompt(title, content)`: the f-string template
with `title`, `content` and `style_prompt` interpolated. -/
def construct_image_prompt (title content : String) : String :=
  promptPart1 ++ title ++ promptPart2 ++ content ++ promptPart3 ++ style_prompt ++ promptPart4

/-- Split a character list on the slash character (POSIX path separation). -/
def splitSlash : List Char → List (List Char)
  | [] => [[]]
  | c :: rest =>
    if c = '/' then [] :: splitSlash rest
    else
      match splitSlash rest with
      | [] => [[c]]
      | g :: gs => (c :: g) :: gs

/-- A `pathlib` pure path: an absolute flag and a list of components. -/
structure PyPath where
  abs : Bool
  comps : List (List Char)
deriving DecidableEq

/-- Whether the raw path string begins with a slash (is absolute). -/
def startsSlash : List Char → Bool
  | [] => false
  | c :: _ => c = '/'

/-- `pathlib` joining, `p / s`: an absolute right operand resets the whole
path; otherwise the right operand's non-empty components are appended. -/
def joinPath (p : PyPath) (s : String) : PyPath :=
  let cs := s.data
  let segs := (splitSlash cs).filter (fun g => !g.isEmpty)
  if startsSlash cs then ⟨true, segs⟩ else ⟨p.abs, p.comps ++ segs⟩

/-- Source `get_output_path(filename)`: `repo_root / "posts" / "images" /
filename`.  `repo_root` (the parent of the script's own directory) is an
ambient input and is passed explicitly; the `mkdir(parents=True,
exist_ok=True)` side effect creates directories only and is not modelled. -/
def get_output_path (repo_root : PyPath) (filename : String) : PyPath :=
  joinPath (joinPath (joinPath repo_root "posts") "images") filename

/-- Lexical resolution of `.` and `..` components against a stack, as the
operating system resolves the final path. -/
def resolveFrom (stack : List (List Char)) : List (List Char) → List (List Char)
  | [] => stack
  | c :: rest =>
    if c = ['.', '.'] then resolveFrom stack.dropLast rest
    else if c = ['.'] then resolveFrom stack rest
    else resolveFrom (stack ++ [c]) rest

/-- The image payload returned by `client.text_to_image`: a PIL image (whose
`save` produces PNG bytes), raw bytes, or any other shape (which the script
turns into a `ValueError`). -/
inductive ImagePayload
  | pilImage (pngBytes : List Nat)
  | rawBytes (bytes : List Nat)
  | otherShape (typeName : String)
deriving DecidableEq

/-- One printed message of `generate_image`.  Messages that embed dynamic
data carry it; fixed texts are bare constructors.  `sizeKB n` is the
`Size: … KB` line, where the script prints `n / 1024` to two decimals and
`n` is the length of the in-memory payload; `fileVerified n` is the
`File verified: n bytes` line, where `n` comes from `stat().st_size`. -/
inductive Msg
  | generatingFor (title : String)
  | outputFileIs (path : PyPath)
  | promptBanner (prompt : String)
  | callingApi (model : String)
  | apiKeyMissing
  | successBanner
  | savedTo (path : PyPath)
  | sizeKB (byteCount : Nat)
  | fileVerified (size : Nat)
  | pngWarning
  | fileNotCreated
  | failedToGenerate (raw : String)
  | hintUnauthorized
  | hintModelLoading
  | hintRateLimit
  | complete
deriving DecidableEq

/-- True exactly on the `callingApi` message. -/
def Msg.isCalling : Msg → Bool
  | .callingApi _ => true
  | _ => false

/-- True exactly on the three category-hint messages. -/
def Msg.isHint : Msg → Bool
  | .hintUnauthorized => true
  | .hintModelLoading => true
  | .hintRateLimit => true
  | _ => false

/-- True exactly on the `failedToGenerate` message of the fault handler. -/
def Msg.isFailed : Msg → Bool
  | .failedToGenerate _ => true
  | _ => false

/-- The outcomes of the effectful steps of one run: the inference call
(fault message or payload), the file write (`some e` when `open`/`write`
raises — nothing is then written), and the post-write filesystem
observations (`output_path.exists()` and `stat().st_size`). -/
structure Env where
  inference : Except String ImagePayload
  writeFault : Option String
  existsAfterWrite : Bool
  statSize : Nat

/-- The observable outcome of one run of `generate_image`. -/
structure RunResult where
  exitCode : Nat
  networkCalled : Bool
  written : Option (List Nat)
  msgs : List Msg
deriving DecidableEq

/-- The `except Exception` branch: print the raw message, lowercase it and
test the three substring categories in source order (`if`/`elif`/`elif`), so
at most one tailored hint is printed. -/
def classifyHints (raw : String) : List Msg :=
  let error_str := lowerChars raw.data
  if containsSub error_str "unauthorized".data || containsSub error_str "401".data then
    [.hintUnauthorized]
  else if containsSub error_str "model is currently loading".data
      || containsSub error_str "503".data then
    [.hintModelLoading]
  else if containsSub error_str "rate limit".data || containsSub error_str "429".data then
    [.hintRateLimit]
  else []

/-- The body of source `generate_image`, as a pure function of its inputs
and an `Env` of effect outcomes.  Each `print` becomes a `Msg`;
`sys.exit(1)` becomes exit code 1, falling off the end exit code 0.  The
post-write `sys.exit(1)` raises `SystemExit`, which `except Exception` does
not catch, so the missing-file exit is not routed through the fault
handler. -/
def generate_image (repo_root : PyPath)
    (title content output_filename api_key model : String)
    (env : Env) : RunResult :=
  if api_key = "" then
    { exitCode := 1, networkCalled := false, written := none,
      msgs := [.apiKeyMissing] }
  else
    let fn := ensure_png_extension output_filename
    let output_path := get_output_path repo_root fn
    let image_prompt := construct_image_prompt title content
    let header : List Msg :=
      [.generatingFor title, .outputFileIs output_path,
       .promptBanner image_prompt, .callingApi model]
    let fault : String → RunResult := fun e =>
      { exitCode := 1, networkCalled := true, written := none,
        msgs := header ++ (Msg.failedToGenerate e :: classifyHints e) }
    let writePhase : List Nat → RunResult := fun image_bytes =>
      match env.writeFault with
      | some e => fault e
      | none =>
        let base := header ++
          [Msg.successBanner, .savedTo output_path, .sizeKB image_bytes.length]
        if env.existsAfterWrite then
          { exitCode := 0, networkCalled := true, written := some image_bytes,
            msgs := base ++ [Msg.fileVerified env.statSize] ++
              (if validate_png image_bytes then [] else [Msg.pngWarning]) ++
              [Msg.complete] }
        else
          { exitCode := 1, networkCalled := true, written := some image_bytes,
            msgs := base ++ [Msg.fileNotCreated] }
    match env.inference with
    | .error e => fault e
    | .ok (.otherShape ty) => fault ("Unexpected image type: " ++ ty)
    | .ok (.pilImage bs) => writePhase bs
    | .ok (.rawBytes bs) => writePhase bs

/-- `s` contains `t` as a (contiguous) substring. -/
def ContainsStr (s t : String) : Prop := ∃ p q, s = p ++ t ++ q

theorem ContainsStr.extend_left {s t : String} (a : String)
    (h : ContainsStr s t) : ContainsStr (a ++ s) t := by
  obtain ⟨p, q, rfl⟩ := h
  exact ⟨a ++ p, q, by simp [String.append_assoc]⟩

/-- C1: PNG signature validation.  `validate_png` answers `true` exactly on
byte sequences that start with the 8-byte PNG signature; in particular every
sequence shorter than 8 bytes is rejected.  The function is total (Python
slicing truncates short inputs), so no input faults. -/
theorem validate_png_spec (data : List Nat) :
    (validate_png data = true ↔ ∃ rest, data = png_signature ++ rest)
    ∧ (data.length < 8 → validate_png data = false) := by
  have hiff : validate_png data = true ↔ ∃ rest, data = png_signature ++ rest := by
    constructor
    · intro h
      have h8 : data.take 8 = png_signature := by
        simpa [validate_png] using h
      refine ⟨data.drop 8, ?_⟩
      conv_lhs => rw [← List.take_append_drop 8 data]
      rw [h8]
    · rintro ⟨rest, rfl⟩
      have hlen : png_signature.length = 8 := rfl
      have : (png_signature ++ rest).take 8 = png_signature := by
        rw [← hlen, List.take_left]
      simp [validate_png, this]
  refine ⟨hiff, ?_⟩
  intro hlen
  rcases h : validate_png data with _ | _
  · rfl
  · exfalso
    obtain ⟨rest, rfl⟩ := hiff.mp h
    simp [png_signature] at hlen
    omega

theorem validate_png_spec_witness :
    ([0, 0].length < 8 ∧ validate_png [0, 0] = false)
    ∧ (validate_png (png_signature ++ [1, 2, 3]) = true) := by
  refine ⟨⟨by decide, (validate_png_spec [0, 0]).2 (by decide)⟩, ?_⟩
  exact (validate_png_spec (png_signature ++ [1, 2, 3])).1.mpr ⟨[1, 2, 3], rfl⟩

/-- C2: filename normalization.  When the filename does not end in the exact
case-sensitive suffix `".png"`, exactly `".png"` is appended; when it already
ends in `".png"`, the filename is returned unchanged. -/
theorem ensure_png_extension_spec (filename : String) :
    (¬ (".png".data <:+ filename.data) →
      ensure_png_extension filename = filename ++ ".png")
    ∧ ((".png".data <:+ filename.data) →
      ensure_png_extension filename = filename) := by
  constructor <;> intro h <;>
    simp [ensure_png_extension, List.isSuffixOf_iff_suffix, h]

theorem ensure_png_extension_spec_witness :
    (¬ (".png".data <:+ "cover.PNG".data)
      ∧ ensure_png_extension "cover.PNG" = "cover.PNG" ++ ".png")
    ∧ ((".png".data <:+ "cover.png".data)
      ∧ ensure_png_extension "cover.png" = "cover.png") :=
  ⟨⟨by decide, (ensure_png_extension_spec "cover.PNG").1 (by decide)⟩,
   ⟨by decide, (ensure_png_extension_spec "cover.png").2 (by decide)⟩⟩

theorem containsStr_of_sub {s t : String} (h : t.data <:+: s.data) :
    ContainsStr s t := by
  obtain ⟨p, q, hpq⟩ := h
  refine ⟨⟨p⟩, ⟨q⟩, ?_⟩
  apply String.ext
  simpa [String.data_append] using hpq.symm

set_option maxRecDepth 100000 in
/-- C3: the prompt builder is a pure function of `(title, content)` (it is a
Lean function of exactly those arguments), and its output contains the
literal title, the literal content, and every fixed constraint phrase of the
template — style, subject, colour, composition, exclusion and orientation —
as substrings, with no escaping applied to title or content. -/
theorem construct_image_prompt_spec (title content : String) :
    ContainsStr (construct_image_prompt title content) title
    ∧ ContainsStr (construct_image_prompt title content) content
    ∧ ContainsStr (construct_image_prompt title content) style_prompt
    ∧ ContainsStr (construct_image_prompt title content)
        "Scene or object-based imagery"
    ∧ ContainsStr (construct_image_prompt title content)
        "Modern, tech-oriented color scheme"
    ∧ ContainsStr (construct_image_prompt title content)
        "Limited color palette (3-5 colors)"
    ∧ ContainsStr (construct_image_prompt title content)
        "Include at least one element in sharp focus and one element with blur/depth-of-field effect"
    ∧ ContainsStr (construct_image_prompt title content)
        "No people or animals"
    ∧ ContainsStr (construct_image_prompt title content)
        "No text or words in the image"
    ∧ ContainsStr (construct_image_prompt title content)
        "Landscape orientation suitable for a blog header" := by
  refine ⟨?_, ?_, ?_, ?_, ?_, ?_, ?_, ?_, ?_, ?_⟩
  · exact ⟨promptPart1,
      promptPart2 ++ content ++ promptPart3 ++ style_prompt ++ promptPart4,
      by simp [construct_image_prompt, String.append_assoc]⟩
  · exact ⟨promptPart1 ++ title ++ promptPart2,
      promptPart3 ++ style_prompt ++ promptPart4,
      by simp [construct_image_prompt, String.append_assoc]⟩
  · exact ⟨promptPart1 ++ title ++ promptPart2 ++ content ++ promptPart3,
      promptPart4,
      by simp [construct_image_prompt, String.append_assoc]⟩
  all_goals
    exact ContainsStr.extend_left _ (containsStr_of_sub (by decide))

/-- C4: with an empty credential (no explicit argument and no environment
fallback), the run exits with status 1 after the diagnostic message, and the
inference client is never constructed: no network request is attempted,
whatever the environment would have answered. -/
theorem generate_image_empty_key (repo_root : PyPath)
    (title content output_filename model : String) (env : Env) :
    (generate_image repo_root title content output_filename "" model env).exitCode = 1
    ∧ (generate_image repo_root title content output_filename "" model env).networkCalled
        = false
    ∧ Msg.apiKeyMissing
        ∈ (generate_image repo_root title content output_filename "" model env).msgs := by
  refine ⟨rfl, rfl, ?_⟩
  simp [generate_image]

/-- C5: every fault of the inference call reaches the single handler: the
raw message is printed, exactly one request was attempted (no retry), the
exit code is 1, and the lowercased message is matched in order against the
three substring categories, printing exactly the matching category's hint —
or no hint at all when none matches. -/
theorem generate_image_fault_spec (repo_root : PyPath)
    (title content output_filename api_key model e : String) (env : Env)
    (hk : api_key ≠ "") (he : env.inference = .error e) :
    (generate_image repo_root title content output_filename api_key model env).exitCode = 1
    ∧ Msg.failedToGenerate e
        ∈ (generate_image repo_root title content output_filename api_key model env).msgs
    ∧ (generate_image repo_root title content output_filename api_key model env).msgs.filter
        Msg.isCalling = [.callingApi model]
    ∧ ((containsSub (lowerChars e.data) "unauthorized".data
          || containsSub (lowerChars e.data) "401".data) = true →
        (generate_image repo_root title content output_filename api_key model env).msgs.filter
          Msg.isHint = [.hintUnauthorized])
    ∧ ((containsSub (lowerChars e.data) "unauthorized".data
          || containsSub (lowerChars e.data) "401".data) = false →
       (containsSub (lowerChars e.data) "model is currently loading".data
          || containsSub (lowerChars e.data) "503".data) = true →
        (generate_image repo_root title content output_filename api_key model env).msgs.filter
          Msg.isHint = [.hintModelLoading])
    ∧ ((containsSub (lowerChars e.data) "unauthorized".data
          || containsSub (lowerChars e.data) "401".data) = false →
       (containsSub (lowerChars e.data) "model is currently loading".data
          || containsSub (lowerChars e.data) "503".data) = false →
       (containsSub (lowerChars e.data) "rate limit".data
          || containsSub (lowerChars e.data) "429".data) = true →
        (generate_image repo_root title content output_filename api_key model env).msgs.filter
          Msg.isHint = [.hintRateLimit])
    ∧ ((containsSub (lowerChars e.data) "unauthorized".data
          || containsSub (lowerChars e.data) "401".data) = false →
       (containsSub (lowerChars e.data) "model is currently loading".data
          || containsSub (lowerChars e.data) "503".data) = false →
       (containsSub (lowerChars e.data) "rate limit".data
          || containsSub (lowerChars e.data) "429".data) = false →
        (generate_image repo_root title content output_filename api_key model env).msgs.filter
          Msg.isHint = []) := by
  refine ⟨?_, ?_, ?_, ?_, ?_, ?_, ?_⟩
  · simp [generate_image, hk, he]
  · simp [generate_image, hk, he]
  · simp [generate_image, hk, he, Msg.isCalling, classifyHints]
    split_ifs <;> simp [Msg.isCalling]
  · intro h1
    simp [generate_image, hk, he, Msg.isHint, classifyHints, h1]
  · intro h1 h2
    simp [generate_image, hk, he, Msg.isHint, classifyHints, h1, h2]
  · intro h1 h2 h3
    simp [generate_image, hk, he, Msg.isHint, classifyHints, h1, h2, h3]
  · intro h1 h2 h3
    simp [generate_image, hk, he, Msg.isHint, classifyHints, h1, h2, h3]

theorem generate_image_fault_spec_witness :
    ("k" ≠ "")
    ∧ (generate_image ⟨true, []⟩ "t" "c" "img" "k" "m"
        ⟨.error "HTTP 401 Unauthorized", none, true, 0⟩).exitCode = 1
    ∧ Msg.failedToGenerate "HTTP 401 Unauthorized"
        ∈ (generate_image ⟨true, []⟩ "t" "c" "img" "k" "m"
            ⟨.error "HTTP 401 Unauthorized", none, true, 0⟩).msgs
    ∧ (generate_image ⟨true, []⟩ "t" "c" "img" "k" "m"
        ⟨.error "HTTP 401 Unauthorized", none, true, 0⟩).msgs.filter Msg.isHint
        = [.hintUnauthorized] := by
  have h := generate_image_fault_spec ⟨true, []⟩ "t" "c" "img" "k" "m"
    "HTTP 401 Unauthorized" ⟨.error "HTTP 401 Unauthorized", none, true, 0⟩
    (by decide) rfl
  exact ⟨by decide, h.1, h.2.1, h.2.2.2.1 (by decide)⟩

/-- C6: when the inference call raises, the run exits with status 1, the
output file is never written (the write statement is only reached on a
successful call), and when the message contains `"401"` the
unauthorized-specific hint is among the diagnostics. -/
theorem generate_image_fault_no_write (repo_root : PyPath)
    (title content output_filename api_key model e : String) (env : Env)
    (hk : api_key ≠ "") (he : env.inference = .error e) :
    (generate_image repo_root title content output_filename api_key model env).exitCode = 1
    ∧ (generate_image repo_root title content output_filename api_key model env).written
        = none
    ∧ (containsSub (lowerChars e.data) "401".data = true →
        Msg.hintUnauthorized
          ∈ (generate_image repo_root title content output_filename api_key model env).msgs) := by
  refine ⟨?_, ?_, ?_⟩
  · simp [generate_image, hk, he]
  · simp [generate_image, hk, he]
  · intro h401
    simp [generate_image, hk, he, classifyHints, h401]

theorem generate_image_fault_no_write_witness :
    ("k" ≠ "")
    ∧ (generate_image ⟨true, []⟩ "t" "c" "img" "k" "m"
        ⟨.error "Error 401", none, true, 0⟩).exitCode = 1
    ∧ (generate_image ⟨true, []⟩ "t" "c" "img" "k" "m"
        ⟨.error "Error 401", none, true, 0⟩).written = none
    ∧ Msg.hintUnauthorized
        ∈ (generate_image ⟨true, []⟩ "t" "c" "img" "k" "m"
            ⟨.error "Error 401", none, true, 0⟩).msgs := by
  have h := generate_image_fault_no_write ⟨true, []⟩ "t" "c" "img" "k" "m"
    "Error 401" ⟨.error "Error 401", none, true, 0⟩ (by decide) rfl
  exact ⟨by decide, h.1, h.2.1, h.2.2 (by decide)⟩

/-- C7: when the backend answers with bytes whose first 8 bytes are not the
PNG signature (and the filesystem behaves normally), the file is still
written and kept, a warning is printed, no fault-handler message appears,
the post-write check does not fire, and the run exits with status 0: a
signature mismatch is never fatal. -/
theorem generate_image_bad_signature_warning (repo_root : PyPath)
    (title content output_filename api_key model : String) (bs : List Nat) (env : Env)
    (hk : api_key ≠ "") (he : env.inference = .ok (.rawBytes bs))
    (hw : env.writeFault = none) (hx : env.existsAfterWrite = true)
    (hv : validate_png bs = false) :
    (generate_image repo_root title content output_filename api_key model env).exitCode = 0
    ∧ (generate_image repo_root title content output_filename api_key model env).written
        = some bs
    ∧ Msg.pngWarning
        ∈ (generate_image repo_root title content output_filename api_key model env).msgs
    ∧ (generate_image repo_root title content output_filename api_key model env).msgs.filter
        Msg.isFailed = []
    ∧ Msg.fileNotCreated
        ∉ (generate_image repo_root title content output_filename api_key model env).msgs := by
  refine ⟨?_, ?_, ?_, ?_, ?_⟩ <;>
    simp [generate_image, hk, he, hw, hx, hv, Msg.isFailed]

theorem generate_image_bad_signature_warning_witness :
    ("k" ≠ "" ∧ validate_png [1, 2, 3] = false)
    ∧ (generate_image ⟨true, []⟩ "t" "c" "img" "k" "m"
        ⟨.ok (.rawBytes [1, 2, 3]), none, true, 3⟩).exitCode = 0
    ∧ (generate_image ⟨true, []⟩ "t" "c" "img" "k" "m"
        ⟨.ok (.rawBytes [1, 2, 3]), none, true, 3⟩).written = some [1, 2, 3]
    ∧ Msg.pngWarning
        ∈ (generate_image ⟨true, []⟩ "t" "c" "img" "k" "m"
            ⟨.ok (.rawBytes [1, 2, 3]), none, true, 3⟩).msgs := by
  have h := generate_image_bad_signature_warning ⟨true, []⟩ "t" "c" "img" "k" "m"
    [1, 2, 3] ⟨.ok (.rawBytes [1, 2, 3]), none, true, 3⟩
    (by decide) rfl rfl rfl (by decide)
  exact ⟨⟨by decide, by decide⟩, h.1, h.2.1, h.2.2.1⟩

/-- C8, counterexample to the claim as stated: in a successful run whose
on-disk size (`stat().st_size`, here 999) differs from the in-memory byte
count (here 3), the operator is shown a `Size: … KB` figure computed from
the in-memory byte count — so the size reported is not (only) obtained from
the filesystem stat call. -/
theorem generate_image_size_report_cex :
    Msg.sizeKB 3
      ∈ (generate_image ⟨true, []⟩ "t" "c" "img" "k" "m"
          ⟨.ok (.rawBytes [1, 2, 3]), none, true, 999⟩).msgs
    ∧ Msg.fileVerified 999
      ∈ (generate_image ⟨true, []⟩ "t" "c" "img" "k" "m"
          ⟨.ok (.rawBytes [1, 2, 3]), none, true, 999⟩).msgs
    ∧ (3 : Nat) ≠ 999 := by
  refine ⟨?_, ?_, by decide⟩ <;> simp [generate_image, validate_png, png_signature]

/-- C8, amended: after a successful write the operator is shown two
figures — a `Size: … KB` line computed from the in-memory byte count of the
written payload, and additionally a `File verified: … bytes` line re-read
from the path via the filesystem stat call, which reports exactly
`stat().st_size`. -/
theorem generate_image_size_reports (repo_root : PyPath)
    (title content output_filename api_key model : String) (bs : List Nat) (env : Env)
    (hk : api_key ≠ "") (he : env.inference = .ok (.rawBytes bs))
    (hw : env.writeFault = none) (hx : env.existsAfterWrite = true) :
    Msg.sizeKB bs.length
      ∈ (generate_image repo_root title content output_filename api_key model env).msgs
    ∧ Msg.fileVerified env.statSize
      ∈ (generate_image repo_root title content output_filename api_key model env).msgs := by
  constructor <;> simp [generate_image, hk, he, hw, hx]

theorem generate_image_size_reports_witness :
    ("k" ≠ "")
    ∧ Msg.sizeKB 2
      ∈ (generate_image ⟨true, []⟩ "t" "c" "img" "k" "m"
          ⟨.ok (.rawBytes [9, 9]), none, true, 7⟩).msgs
    ∧ Msg.fileVerified 7
      ∈ (generate_image ⟨true, []⟩ "t" "c" "img" "k" "m"
          ⟨.ok (.rawBytes [9, 9]), none, true, 7⟩).msgs := by
  have h := generate_image_size_reports ⟨true, []⟩ "t" "c" "img" "k" "m"
    [9, 9] ⟨.ok (.rawBytes [9, 9]), none, true, 7⟩ (by decide) rfl rfl rfl
  exact ⟨by decide, h.1, h.2⟩

/-- C9: when the write call returns but the path does not exist afterwards,
the run exits with status 1 right after the missing-file error, the write
did happen, and neither the fault-handler message nor any category hint is
printed: the `sys.exit(1)` raises `SystemExit`, which the `except Exception`
boundary does not catch, so this failure is not routed through the fault
handler. -/
theorem generate_image_postwrite_missing (repo_root : PyPath)
    (title content output_filename api_key model : String) (bs : List Nat) (env : Env)
    (hk : api_key ≠ "") (he : env.inference = .ok (.rawBytes bs))
    (hw : env.writeFault = none) (hx : env.existsAfterWrite = false) :
    (generate_image repo_root title content output_filename api_key model env).exitCode = 1
    ∧ Msg.fileNotCreated
        ∈ (generate_image repo_root title content output_filename api_key model env).msgs
    ∧ (generate_image repo_root title content output_filename api_key model env).written
        = some bs
    ∧ (generate_image repo_root title content output_filename api_key model env).msgs.filter
        Msg.isFailed = []
    ∧ (generate_image repo_root title content output_filename api_key model env).msgs.filter
        Msg.isHint = [] := by
  refine ⟨?_, ?_, ?_, ?_, ?_⟩ <;>
    simp [generate_image, hk, he, hw, hx, Msg.isFailed, Msg.isHint]

theorem generate_image_postwrite_missing_witness :
    ("k" ≠ "")
    ∧ (generate_image ⟨true, []⟩ "t" "c" "img" "k" "m"
        ⟨.ok (.rawBytes [9]), none, false, 0⟩).exitCode = 1
    ∧ Msg.fileNotCreated
        ∈ (generate_image ⟨true, []⟩ "t" "c" "img" "k" "m"
            ⟨.ok (.rawBytes [9]), none, false, 0⟩).msgs
    ∧ (generate_image ⟨true, []⟩ "t" "c" "img" "k" "m"
        ⟨.ok (.rawBytes [9]), none, false, 0⟩).msgs.filter Msg.isFailed = [] := by
  have h := generate_image_postwrite_missing ⟨true, []⟩ "t" "c" "img" "k" "m"
    [9] ⟨.ok (.rawBytes [9]), none, false, 0⟩ (by decide) rfl rfl rfl
  exact ⟨by decide, h.1, h.2.1, h.2.2.2.1⟩

theorem splitSlash_no_slash {cs : List Char} (h : ∀ c ∈ cs, c ≠ '/') :
    splitSlash cs = [cs] := by
  induction cs with
  | nil => rfl
  | cons c rest ih =>
    have hc : c ≠ '/' := h c (by simp)
    have hrest := ih (fun x hx => h x (by simp [hx]))
    simp [splitSlash, hc, hrest]

theorem joinPath_no_slash (p : PyPath) {g : String}
    (h : ∀ c ∈ g.data, c ≠ '/') (hne : g.data ≠ []) :
    joinPath p g = ⟨p.abs, p.comps ++ [g.data]⟩ := by
  have hss : startsSlash g.data = false := by
    cases hgd : g.data with
    | nil => rfl
    | cons c rest =>
      have hc : c ≠ '/' := h c (by rw [hgd]; simp)
      simp [startsSlash, hc]
  have hf : g.data.isEmpty = false := by
    cases hgd : g.data with
    | nil => exact absurd hgd hne
    | cons c rest => rfl
  simp [joinPath, splitSlash_no_slash h, hss, hf]

theorem resolveFrom_append (xs ys : List (List Char)) (stack : List (List Char)) :
    resolveFrom stack (xs ++ ys) = resolveFrom (resolveFrom stack xs) ys := by
  induction xs generalizing stack with
  | nil => rfl
  | cons c rest ih =>
    simp only [List.cons_append, resolveFrom]
    split_ifs <;> exact ih _

theorem resolveFrom_push (stack : List (List Char)) {c : List Char}
    (h1 : c ≠ ['.', '.']) (h2 : c ≠ ['.']) :
    resolveFrom stack [c] = stack ++ [c] := by
  simp [resolveFrom, h1, h2]

theorem ensure_png_data_suffix (fn : String) :
    ∃ cs, (ensure_png_extension fn).data = cs ++ ['.', 'p', 'n', 'g'] := by
  unfold ensure_png_extension
  split_ifs with h
  · obtain ⟨cs, hcs⟩ := List.isSuffixOf_iff_suffix.mp h
    exact ⟨cs, hcs.symm⟩
  · exact ⟨fn.data, by simp [String.data_append]⟩

/-- C10: the output path is the path join of the fixed
`<script-parent>/posts/images` directory with the normalized filename
as-is (`get_output_path` does nothing but join).  For every filename free
of the path separator the resolved path is exactly one component below the
`posts/images` directory; but for a filename such as `"../../escape"` the
resolved path (here, from repo root `/repo`) is `/repo/escape.png`, outside
`posts/images` — the join sanitizes nothing. -/
theorem get_output_path_spec :
    (∀ (repo_root : PyPath) (fn : String), (∀ c ∈ fn.data, c ≠ '/') →
      (get_output_path repo_root (ensure_png_extension fn)).abs = repo_root.abs
      ∧ resolveFrom [] (get_output_path repo_root (ensure_png_extension fn)).comps
        = resolveFrom [] (repo_root.comps ++ ["posts".data, "images".data])
          ++ [(ensure_png_extension fn).data])
    ∧ (get_output_path ⟨true, ["repo".data]⟩ (ensure_png_extension "../../escape")).abs
        = true
    ∧ resolveFrom []
        (get_output_path ⟨true, ["repo".data]⟩ (ensure_png_extension "../../escape")).comps
        = ["repo".data, "escape.png".data]
    ∧ "images".data
        ∉ resolveFrom []
          (get_output_path ⟨true, ["repo".data]⟩ (ensure_png_extension "../../escape")).comps := by
  refine ⟨?_, by decide, by decide, by decide⟩
  intro repo_root fn hfn
  obtain ⟨cs, hcs⟩ := ensure_png_data_suffix fn
  have hg : ∀ c ∈ (ensure_png_extension fn).data, c ≠ '/' := by
    intro c hc
    unfold ensure_png_extension at hc
    split_ifs at hc with h
    · exact hfn c hc
    · rw [String.data_append] at hc
      rcases List.mem_append.mp hc with h1 | h1
      · exact hfn c h1
      · intro hslash
        rw [hslash] at h1
        simp at h1
  have hne : (ensure_png_extension fn).data ≠ [] := by
    rw [hcs]
    intro heq
    have := congrArg List.length heq
    simp at this
  have hdotdot : (ensure_png_extension fn).data ≠ ['.', '.'] := by
    rw [hcs]
    intro heq
    have := congrArg List.length heq
    simp at this
  have hdot : (ensure_png_extension fn).data ≠ ['.'] := by
    rw [hcs]
    intro heq
    have := congrArg List.length heq
    simp at this
  have j1 : joinPath repo_root "posts" = ⟨repo_root.abs, repo_root.comps ++ ["posts".data]⟩ :=
    joinPath_no_slash repo_root (by decide) (by decide)
  have j2 : joinPath (joinPath repo_root "posts") "images"
      = ⟨repo_root.abs, repo_root.comps ++ ["posts".data] ++ ["images".data]⟩ := by
    rw [j1]
    exact joinPath_no_slash _ (by decide) (by decide)
  have j3 : get_output_path repo_root (ensure_png_extension fn)
      = ⟨repo_root.abs,
         repo_root.comps ++ ["posts".data] ++ ["images".data]
           ++ [(ensure_png_extension fn).data]⟩ := by
    unfold get_output_path
    rw [j2]
    exact joinPath_no_slash _ hg hne
  rw [j3]
  refine ⟨rfl, ?_⟩
  show resolveFrom [] ((repo_root.comps ++ ["posts".data] ++ ["images".data])
      ++ [(ensure_png_extension fn).data]) = _
  rw [resolveFrom_append, resolveFrom_push _ hdotdot hdot]
  congr 2
  simp

theorem get_output_path_spec_witness :
    (∀ c ∈ "cover".data, c ≠ '/')
    ∧ (get_output_path ⟨true, ["repo".data]⟩ (ensure_png_extension "cover")).abs = true
    ∧ resolveFrom []
        (get_output_path ⟨true, ["repo".data]⟩ (ensure_png_extension "cover")).comps
      = resolveFrom [] (["repo".data] ++ ["posts".data, "images".data])
          ++ [(ensure_png_extension "cover").data] := by
  have h := get_output_path_spec.1 ⟨true, ["repo".data]⟩ "cover" (by decide)
  exact ⟨by decide, h.1, h.2⟩

end BlogImage
